import Mathlib

/-!
Shallow embedding of the loan amortization and underwriting engine of
`src/models.py`, together with the decision step of the `apply_loan` route in
`src/app.py`.

Modelling conventions:
* Python `float` values are modelled as exact rationals (`ℚ`); Python's
  `round(x, ndigits)` (round-half-to-even) is modelled by `pyRound2` /
  `pyRound1` on rationals.
* a Python computation that raises `ZeroDivisionError` (the amortization
  formula when its denominator is zero) is modelled as `none`.
* Python `datetime` values are modelled as proleptic Gregorian dates
  (`Date`); `datetime` subtraction (`.days`) is modelled via the day
  ordinal `dateOrdinal`; `start_date + timedelta(days=30*i)` is modelled
  on day ordinals.
* the f-string rejection messages built by `validate_loan_application`
  are modelled by the inductive type `Reason`, one constructor per
  message template, carrying the interpolated numeric values.
-/

/-- Round a rational to the nearest integer, ties to even
(Python's `round` on floats, decimal-exact). -/
def rhe (x : ℚ) : ℤ :=
  let f := Int.floor x
  let frac := x - f
  if frac < 1/2 then f
  else if 1/2 < frac then f + 1
  else if f % 2 = 0 then f else f + 1

/-- Python's `round(x, 2)` on rationals. -/
def pyRound2 (x : ℚ) : ℚ := (rhe (x * 100) : ℚ) / 100

/-- Python's `round(x, 1)` on rationals. -/
def pyRound1 (x : ℚ) : ℚ := (rhe (x * 10) : ℚ) / 10

/-- `LoanCalculator.calculate_emi` (src/models.py:60-66).
`EMI = P * r * (1+r)^n / ((1+r)^n - 1)` with `r = annual_rate / 12 / 100`,
rounded to 2 decimals.  When the denominator `(1+r)^n - 1` is zero
(in particular whenever `annual_rate = 0`, and also when `tenure_months = 0`)
the Python code raises `ZeroDivisionError`, modelled as `none`. -/
def calculate_emi (principal annual_rate : ℚ) (tenure_months : ℕ) : Option ℚ :=
  let monthly_rate := annual_rate / 12 / 100
  if (1 + monthly_rate) ^ tenure_months - 1 = 0 then none
  else
    some (pyRound2 (principal * monthly_rate * (1 + monthly_rate) ^ tenure_months /
      ((1 + monthly_rate) ^ tenure_months - 1)))

/-- One row of the EMI schedule built by `generate_emi_schedule`
(src/models.py:88-95).  `due_date` is the day ordinal of
`start_date + timedelta(days=30*i)`. -/
structure ScheduleEntry where
  emi_number : ℕ
  due_date : ℤ
  emi_amount : ℚ
  principal_component : ℚ
  interest_component : ℚ
  remaining_principal : ℚ
deriving Repr, DecidableEq

/-- The loop body of `generate_emi_schedule` (src/models.py:77-97), by
recursion on the number `k` of rows still to produce; the current row index
is `i = loan_term - (k - 1)` so the call with `k = loan_term` and
`remaining_principal = loan_amount` produces rows `1, ..., loan_term`.
`k = 1` is the final row (`i == loan_term` in the Python code), where the
principal component is forced to the outstanding balance and the installment
is recomputed as `principal_component + interest_component`.  The running
`remaining_principal` is updated with the unrounded principal component;
the reported fields are rounded to 2 decimals. -/
def emiRows (emi_amount monthly_rate : ℚ) (start_date : ℤ) (loan_term : ℕ) :
    ℕ → ℚ → List ScheduleEntry
  | 0, _ => []
  | k + 1, remaining_principal =>
    let i := loan_term - k
    let interest_component := remaining_principal * monthly_rate
    let principal_component :=
      if k = 0 then remaining_principal else emi_amount - interest_component
    let inst :=
      if k = 0 then principal_component + interest_component else emi_amount
    { emi_number := i
      due_date := start_date + 30 * (i : ℤ)
      emi_amount := pyRound2 inst
      principal_component := pyRound2 principal_component
      interest_component := pyRound2 interest_component
      remaining_principal := pyRound2 (remaining_principal - principal_component) } ::
      emiRows emi_amount monthly_rate start_date loan_term k
        (remaining_principal - principal_component)

/-- `LoanCalculator.generate_emi_schedule` (src/models.py:69-99); `none` when
`calculate_emi` raises. -/
def generate_emi_schedule (loan_amount interest_rate : ℚ) (loan_term : ℕ)
    (start_date : ℤ) : Option (List ScheduleEntry) :=
  (calculate_emi loan_amount interest_rate loan_term).map fun emi_amount =>
    emiRows emi_amount (interest_rate / 12 / 100) start_date loan_term
      loan_term loan_amount

/-- `LoanCalculator.calculate_total_interest` (src/models.py:102-106):
`round(emi * loan_term - loan_amount, 2)`; `none` when `calculate_emi`
raises. -/
def calculate_total_interest (loan_amount interest_rate : ℚ) (loan_term : ℕ) :
    Option ℚ :=
  (calculate_emi loan_amount interest_rate loan_term).map fun emi =>
    pyRound2 (emi * loan_term - loan_amount)

/-- A calendar date (proleptic Gregorian), modelling a Python `datetime`
at midnight. -/
structure Date where
  year : ℤ
  month : ℤ
  day : ℤ
deriving Repr, DecidableEq

/-- Julian day number of a Gregorian date; models Python's
`datetime.toordinal` up to a constant offset, so differences of
`dateOrdinal` model `(d1 - d2).days`. -/
def dateOrdinal (d : Date) : ℤ :=
  let a := (14 - d.month) / 12
  let y := d.year + 4800 - a
  let m := d.month + 12 * a - 3
  d.day + (153 * m + 2) / 5 + 365 * y + y / 4 - y / 100 + y / 400 - 32045

/-- The fields of the `User` model (src/database.py) consumed by
`LoanValidator` (src/models.py). -/
structure PyUser where
  annual_income : ℚ
  existing_emis : ℚ
  credit_score : ℤ
  date_of_birth : Option Date
  employment_start_date : Option Date
deriving Repr, DecidableEq

/-- `LoanValidator.calculate_age` (src/models.py:110-115); the evaluation
date `today` (Python's `datetime.today()`) is passed explicitly. -/
def calculate_age (birth_date : Option Date) (today : Date) : ℤ :=
  match birth_date with
  | none => 0
  | some b =>
    today.year - b.year -
      (if today.month < b.month ∨ (today.month = b.month ∧ today.day < b.day)
       then 1 else 0)

/-- `LoanValidator.calculate_employment_years` (src/models.py:118-123):
`round((today - employment_start_date).days / 365.25, 1)`; `0` when the
start date is absent. -/
def calculate_employment_years (employment_start_date : Option Date)
    (today : Date) : ℚ :=
  match employment_start_date with
  | none => 0
  | some s =>
    pyRound1 (((dateOrdinal today - dateOrdinal s : ℤ) : ℚ) / (36525 / 100))

/-- `LoanValidator.calculate_dti_ratio` (src/models.py:126-132). -/
def calculate_dti_ratio (user : PyUser) (new_loan_emi : ℚ) : ℚ :=
  let monthly_income := user.annual_income / 12
  let total_monthly_debt := user.existing_emis + new_loan_emi
  if monthly_income = 0 then 100
  else total_monthly_debt / monthly_income * 100

/-- One entry of the `LOAN_CRITERIA` table (src/models.py:5-56). -/
structure Criteria where
  min_age : ℤ
  max_age_maturity : ℚ
  min_income : ℚ
  min_employment_years : ℚ
  min_credit_score : ℤ
  max_dti_ratio : ℚ
  min_interest_rate : ℚ
  max_loan_to_income : ℚ
deriving Repr, DecidableEq

/-- `LOAN_CRITERIA['Personal Loan']` (src/models.py:6-15). -/
def personalLoanCriteria : Criteria :=
  { min_age := 21, max_age_maturity := 65, min_income := 300000
    min_employment_years := 1, min_credit_score := 650, max_dti_ratio := 40
    min_interest_rate := 105/10, max_loan_to_income := 5 }

/-- The `LOAN_CRITERIA` dict (src/models.py:5-56). -/
def LOAN_CRITERIA : List (String × Criteria) :=
  [("Personal Loan", personalLoanCriteria),
   ("Home Loan",
    { min_age := 21, max_age_maturity := 70, min_income := 600000
      min_employment_years := 2, min_credit_score := 700, max_dti_ratio := 35
      min_interest_rate := 85/10, max_loan_to_income := 6 }),
   ("Car Loan",
    { min_age := 21, max_age_maturity := 65, min_income := 400000
      min_employment_years := 1, min_credit_score := 600, max_dti_ratio := 45
      min_interest_rate := 75/10, max_loan_to_income := 5 }),
   ("Education Loan",
    { min_age := 18, max_age_maturity := 35, min_income := 0
      min_employment_years := 0, min_credit_score := 550, max_dti_ratio := 0
      min_interest_rate := 8, max_loan_to_income := 10 }),
   ("Business Loan",
    { min_age := 25, max_age_maturity := 65, min_income := 800000
      min_employment_years := 3, min_credit_score := 720, max_dti_ratio := 30
      min_interest_rate := 11, max_loan_to_income := 4 })]

/-- `LOAN_CRITERIA.get(loan_type, LOAN_CRITERIA['Personal Loan'])`
(src/models.py:137): unknown keys fall back to the Personal Loan entry. -/
def criteriaFor (loan_type : String) : Criteria :=
  (LOAN_CRITERIA.lookup loan_type).getD personalLoanCriteria

/-- A Python float that may be `float('inf')` (the `loan_to_income`
sentinel of src/models.py:145). -/
inductive RatInf where
  | fin : ℚ → RatInf
  | inf : RatInf
deriving Repr, DecidableEq

/-- `x > t` for a possibly-infinite float `x` and a finite threshold `t`
(IEEE: `inf > t` is always true). -/
def RatInf.gtQ : RatInf → ℚ → Bool
  | .fin q, t => t < q
  | .inf, _ => true

/-- The rejection messages of `validate_loan_application`
(src/models.py:149-176), one constructor per f-string template, carrying
the interpolated numbers. -/
inductive Reason where
  | minAge (v : ℤ)
  | maxAgeMaturity (v : ℚ)
  | minIncome (v : ℚ)
  | minEmploymentYears (v : ℚ)
  | minCreditScore (v : ℤ)
  | maxDti (maxRatio dti : ℚ)
  | minInterestRate (v : ℚ)
  | maxLoanToIncome (v : ℚ)
deriving Repr, DecidableEq

/-- The `calculations` dict returned by `validate_loan_application`
(src/models.py:178-184). -/
structure Metrics where
  age : ℤ
  employment_years : ℚ
  dti_ratio : ℚ
  loan_to_income : RatInf
  age_at_maturity : ℚ
deriving Repr, DecidableEq

/-- `LoanValidator.validate_loan_application` (src/models.py:135-184).
`none` models the `ZeroDivisionError` escaping from `calculate_emi`
(line 143); otherwise the eight threshold checks run in source order, each
appending its message to `issues` when it fails. -/
def validate_loan_application (user : PyUser) (loan_amount interest_rate : ℚ)
    (loan_term : ℕ) (loan_type : String) (today : Date) :
    Option (List Reason × Metrics) :=
  let criteria := criteriaFor loan_type
  (calculate_emi loan_amount interest_rate loan_term).map fun new_loan_emi =>
    let age := calculate_age user.date_of_birth today
    let employment_years :=
      calculate_employment_years user.employment_start_date today
    let dti_ratio := calculate_dti_ratio user new_loan_emi
    let loan_to_income : RatInf :=
      if 0 < user.annual_income then .fin (loan_amount / user.annual_income)
      else .inf
    let age_at_maturity : ℚ := (age : ℚ) + (loan_term : ℚ) / 12
    let issues : List Reason := []
    let issues :=
      if age < criteria.min_age then issues ++ [.minAge criteria.min_age]
      else issues
    let issues :=
      if criteria.max_age_maturity < age_at_maturity then
        issues ++ [.maxAgeMaturity criteria.max_age_maturity]
      else issues
    let issues :=
      if user.annual_income < criteria.min_income then
        issues ++ [.minIncome criteria.min_income]
      else issues
    let issues :=
      if employment_years < criteria.min_employment_years then
        issues ++ [.minEmploymentYears criteria.min_employment_years]
      else issues
    let issues :=
      if user.credit_score < criteria.min_credit_score then
        issues ++ [.minCreditScore criteria.min_credit_score]
      else issues
    let issues :=
      if criteria.max_dti_ratio < dti_ratio then
        issues ++ [.maxDti criteria.max_dti_ratio dti_ratio]
      else issues
    let issues :=
      if interest_rate < criteria.min_interest_rate then
        issues ++ [.minInterestRate criteria.min_interest_rate]
      else issues
    let issues :=
      if loan_to_income.gtQ criteria.max_loan_to_income then
        issues ++ [.maxLoanToIncome criteria.max_loan_to_income]
      else issues
    (issues,
     { age := age, employment_years := employment_years
       dti_ratio := dti_ratio, loan_to_income := loan_to_income
       age_at_maturity := age_at_maturity })

/-- The `status` values of a `Loan` row (src/database.py). -/
inductive LoanStatus where
  | Pending
  | Approved
  | Rejected
deriving Repr, DecidableEq

/-- The decision step of the `apply_loan` route (src/app.py:138-152):
validate, then `status = 'Rejected'` when `issues` is non-empty
(`if issues:`), else `status = 'Pending'`.  `none` models the unhandled
exception escaping from `validate_loan_application`. -/
def apply_loan (user : PyUser) (loan_amount interest_rate : ℚ) (loan_term : ℕ)
    (loan_type : String) (today : Date) : Option (LoanStatus × List Reason) :=
  (validate_loan_application user loan_amount interest_rate loan_term
      loan_type today).map fun res =>
    if res.1 ≠ [] then (.Rejected, res.1) else (.Pending, res.1)

/-- The running outstanding balance of `generate_emi_schedule` after `k`
non-final iterations: each iteration subtracts the unrounded principal
component `emi_amount - rem * monthly_rate`. -/
def remAt (emi_amount monthly_rate : ℚ) : ℕ → ℚ → ℚ
  | 0, rem => rem
  | k + 1, rem =>
    remAt emi_amount monthly_rate k (rem - (emi_amount - rem * monthly_rate))

/-- The per-check bookkeeping contract of `validate_loan_application`
(src/models.py:148-176) relative to the returned `issues` and
`calculations`: the number of issues equals the number of failing checks
among the eight threshold checks, and each check's message is present iff
that check fails. -/
def ChecksSpec (c : Criteria) (annual_income : ℚ) (credit_score : ℤ)
    (interest_rate : ℚ) (issues : List Reason) (m : Metrics) : Prop :=
  issues.length =
    ((if m.age < c.min_age then 1 else 0) +
     (if c.max_age_maturity < m.age_at_maturity then 1 else 0) +
     (if annual_income < c.min_income then 1 else 0) +
     (if m.employment_years < c.min_employment_years then 1 else 0) +
     (if credit_score < c.min_credit_score then 1 else 0) +
     (if c.max_dti_ratio < m.dti_ratio then 1 else 0) +
     (if interest_rate < c.min_interest_rate then 1 else 0) +
     (if m.loan_to_income.gtQ c.max_loan_to_income = true then 1 else 0)) ∧
  (Reason.minAge c.min_age ∈ issues ↔ m.age < c.min_age) ∧
  (Reason.maxAgeMaturity c.max_age_maturity ∈ issues ↔
     c.max_age_maturity < m.age_at_maturity) ∧
  (Reason.minIncome c.min_income ∈ issues ↔ annual_income < c.min_income) ∧
  (Reason.minEmploymentYears c.min_employment_years ∈ issues ↔
     m.employment_years < c.min_employment_years) ∧
  (Reason.minCreditScore c.min_credit_score ∈ issues ↔
     credit_score < c.min_credit_score) ∧
  (Reason.maxDti c.max_dti_ratio m.dti_ratio ∈ issues ↔
     c.max_dti_ratio < m.dti_ratio) ∧
  (Reason.minInterestRate c.min_interest_rate ∈ issues ↔
     interest_rate < c.min_interest_rate) ∧
  (Reason.maxLoanToIncome c.max_loan_to_income ∈ issues ↔
     m.loan_to_income.gtQ c.max_loan_to_income = true)

/-- Concrete borrower used to evaluate the model on closed inputs. -/
def exampleBorrower : PyUser :=
  { annual_income := 500000, existing_emis := 0, credit_score := 700
    date_of_birth := none, employment_start_date := none }

/-- Concrete borrower with zero annual income. -/
def zeroIncomeBorrower : PyUser :=
  { annual_income := 0, existing_emis := 0, credit_score := 600
    date_of_birth := none, employment_start_date := none }

/-- A fixed evaluation date for closed evaluations. -/
def evalDate : Date := { year := 2025, month := 10, day := 12 }

/-- The schedule produced for a 1000 loan at 120% annual (10% monthly)
interest over 2 months, starting at day ordinal 0. -/
def scheduleFixture : List ScheduleEntry :=
  [{ emi_number := 1, due_date := 30, emi_amount := 57619/100
     principal_component := 47619/100, interest_component := 100
     remaining_principal := 52381/100 },
   { emi_number := 2, due_date := 60, emi_amount := 57619/100
     principal_component := 52381/100, interest_component := 2619/50
     remaining_principal := 0 }]

/-- Issues returned by `validate_loan_application` for `exampleBorrower`
applying for a 1000 Personal Loan at 120% over 2 months. -/
def sampleIssues : List Reason := [.minAge 21, .minEmploymentYears 1]

/-- Metrics returned by `validate_loan_application` for `exampleBorrower`
applying for a 1000 Personal Loan at 120% over 2 months. -/
def sampleMetrics : Metrics :=
  { age := 0, employment_years := 0, dti_ratio := 172857/125000
    loan_to_income := RatInf.fin (1/500), age_at_maturity := 1/6 }

/-- Issues returned by `validate_loan_application` for `zeroIncomeBorrower`
applying for a 1000 Education Loan at 120% over 2 months. -/
def eduIssues : List Reason := [.minAge 18, .maxDti 0 100, .maxLoanToIncome 10]

/-- Metrics returned by `validate_loan_application` for `zeroIncomeBorrower`
applying for a 1000 Education Loan at 120% over 2 months. -/
def eduMetrics : Metrics :=
  { age := 0, employment_years := 0, dti_ratio := 100
    loan_to_income := RatInf.inf, age_at_maturity := 1/6 }

/-! ### Auxiliary lemmas -/

theorem abs_rhe_sub_le (x : ℚ) : |(rhe x : ℚ) - x| ≤ 1/2 := by
  have h0 : ((Int.floor x : ℤ) : ℚ) ≤ x := Int.floor_le x
  have h1 : x < ((Int.floor x : ℤ) : ℚ) + 1 := Int.lt_floor_add_one x
  unfold rhe
  dsimp only
  split_ifs with hf1 hf2 hf3 <;> rw [abs_le] <;> constructor <;> push_cast <;>
    linarith

theorem abs_pyRound2_sub_le (x : ℚ) : |pyRound2 x - x| ≤ 1/200 := by
  have h := abs_rhe_sub_le (x * 100)
  have h2 : pyRound2 x - x = ((rhe (x * 100) : ℚ) - x * 100) / 100 := by
    unfold pyRound2; ring
  rw [h2, abs_div]
  rw [show |(100 : ℚ)| = 100 by norm_num]
  linarith

theorem pyRound2_zero : pyRound2 0 = 0 := by norm_num [pyRound2, rhe]

theorem length_appendIf (c : Prop) [Decidable c] (l : List Reason) (x : Reason) :
    (if c then l ++ [x] else l).length = l.length + (if c then 1 else 0) := by
  split <;> simp

theorem mem_appendIf (c : Prop) [Decidable c] (l : List Reason) (x y : Reason) :
    (y ∈ if c then l ++ [x] else l) ↔ (y ∈ l ∨ (c ∧ y = x)) := by
  split <;> rename_i h <;> simp [h]

theorem emiRows_length (e r : ℚ) (s : ℤ) (n : ℕ) :
    ∀ (k : ℕ) (rem : ℚ), (emiRows e r s n k rem).length = k := by
  intro k
  induction k with
  | zero => intro rem; rfl
  | succ k ih => intro rem; simp only [emiRows, List.length_cons, ih]

/-- One-step unfolding of `emiRows` for a non-final row (`k ≠ 0`, i.e. the
Python loop with `i < loan_term`). -/
theorem emiRows_cons (e r : ℚ) (s : ℤ) (n k : ℕ) (rem : ℚ) (hk : k ≠ 0) :
    emiRows e r s n (k + 1) rem =
      { emi_number := n - k
        due_date := s + 30 * ((n - k : ℕ) : ℤ)
        emi_amount := pyRound2 e
        principal_component := pyRound2 (e - rem * r)
        interest_component := pyRound2 (rem * r)
        remaining_principal := pyRound2 (rem - (e - rem * r)) } ::
      emiRows e r s n k (rem - (e - rem * r)) := by
  simp only [emiRows, if_neg hk]

/-- One-step unfolding of `emiRows` for the final row (`k = 0`, i.e.
`i == loan_term` in the Python loop). -/
theorem emiRows_one (e r : ℚ) (s : ℤ) (n : ℕ) (rem : ℚ) :
    emiRows e r s n 1 rem =
      [{ emi_number := n - 0
         due_date := s + 30 * ((n - 0 : ℕ) : ℤ)
         emi_amount := pyRound2 (rem + rem * r)
         principal_component := pyRound2 rem
         interest_component := pyRound2 (rem * r)
         remaining_principal := pyRound2 (rem - rem) }] := by
  simp [emiRows]

theorem emiRows_map_number (e r : ℚ) (s : ℤ) (n : ℕ) :
    ∀ (k : ℕ) (rem : ℚ), k ≤ n →
      (emiRows e r s n k rem).map ScheduleEntry.emi_number
        = List.range' (n - k + 1) k := by
  intro k
  induction k with
  | zero => intro rem _; rfl
  | succ k ih =>
    intro rem hk
    rw [List.range'_succ]
    simp only [emiRows, List.map_cons]
    rw [ih _ (Nat.le_of_succ_le hk)]
    rw [show n - (k + 1) + 1 = n - k by omega]

theorem emiRows_getLast (e r : ℚ) (s : ℤ) (n : ℕ) :
    ∀ (k : ℕ) (rem : ℚ), ∃ lastEntry,
      (emiRows e r s n (k + 1) rem).getLast? = some lastEntry ∧
      lastEntry.remaining_principal = 0 ∧ lastEntry.emi_number = n := by
  intro k
  induction k with
  | zero =>
    intro rem
    rw [emiRows_one, List.getLast?_singleton]
    refine ⟨_, rfl, ?_, ?_⟩
    · show pyRound2 (rem - rem) = 0
      rw [sub_self, pyRound2_zero]
    · show n - 0 = n
      omega
  | succ k ih =>
    intro rem
    obtain ⟨en, h1, h2, h3⟩ := ih (rem - (e - rem * r))
    refine ⟨en, ?_, h2, h3⟩
    have hlen := emiRows_length e r s n (k + 1) (rem - (e - rem * r))
    rcases hx : emiRows e r s n (k + 1) (rem - (e - rem * r)) with _ | ⟨b, t⟩
    · rw [hx] at hlen; simp at hlen
    · rw [hx] at h1
      rw [emiRows_cons e r s n (k + 1) rem (Nat.succ_ne_zero k), hx,
        List.getLast?_cons_cons]
      exact h1

theorem abs_princ_sum_sub_le (e r : ℚ) (s : ℤ) (n : ℕ) :
    ∀ (k : ℕ) (rem : ℚ),
      |((emiRows e r s n (k + 1) rem).map
          ScheduleEntry.principal_component).sum - rem|
        ≤ ((k : ℚ) + 1) / 200 := by
  intro k
  induction k with
  | zero =>
    intro rem
    rw [emiRows_one]
    simp only [List.map_cons, List.map_nil, List.sum_cons, List.sum_nil,
      add_zero]
    simpa using abs_pyRound2_sub_le rem
  | succ k ih =>
    intro rem
    have h1 := abs_pyRound2_sub_le (e - rem * r)
    have h2 := ih (rem - (e - rem * r))
    rw [emiRows_cons e r s n (k + 1) rem (Nat.succ_ne_zero k)]
    simp only [List.map_cons, List.sum_cons]
    set S := ((emiRows e r s n (k + 1) (rem - (e - rem * r))).map
      ScheduleEntry.principal_component).sum with hS
    have key : pyRound2 (e - rem * r) + S - rem =
        (pyRound2 (e - rem * r) - (e - rem * r)) +
          (S - (rem - (e - rem * r))) := by ring
    rw [key]
    calc |(pyRound2 (e - rem * r) - (e - rem * r)) +
            (S - (rem - (e - rem * r)))|
        ≤ |pyRound2 (e - rem * r) - (e - rem * r)| +
            |S - (rem - (e - rem * r))| := abs_add _ _
      _ ≤ 1/200 + ((k : ℚ) + 1) / 200 := by linarith
      _ = (((k + 1 : ℕ) : ℚ) + 1) / 200 := by push_cast; ring

theorem abs_interest_sum_sub_le (e r : ℚ) (s : ℤ) (n : ℕ) :
    ∀ (k : ℕ) (rem : ℚ),
      |((emiRows e r s n (k + 1) rem).map
          ScheduleEntry.interest_component).sum
        - ((k : ℚ) * e + remAt e r k rem * (1 + r) - rem)|
        ≤ ((k : ℚ) + 1) / 200 := by
  intro k
  induction k with
  | zero =>
    intro rem
    rw [emiRows_one]
    simp only [List.map_cons, List.map_nil, List.sum_cons, List.sum_nil,
      add_zero, remAt, Nat.cast_zero]
    rw [show (0 : ℚ) * e + rem * (1 + r) - rem = rem * r by ring]
    simpa using abs_pyRound2_sub_le (rem * r)
  | succ k ih =>
    intro rem
    have h1 := abs_pyRound2_sub_le (rem * r)
    have h2 := ih (rem - (e - rem * r))
    rw [emiRows_cons e r s n (k + 1) rem (Nat.succ_ne_zero k)]
    simp only [List.map_cons, List.sum_cons]
    set S := ((emiRows e r s n (k + 1) (rem - (e - rem * r))).map
      ScheduleEntry.interest_component).sum with hS
    have hrem : remAt e r (k + 1) rem = remAt e r k (rem - (e - rem * r)) :=
      rfl
    rw [hrem]
    set R := remAt e r k (rem - (e - rem * r)) with hR
    have key : pyRound2 (rem * r) + S -
        (((k + 1 : ℕ) : ℚ) * e + R * (1 + r) - rem) =
        (pyRound2 (rem * r) - rem * r) +
          (S - ((k : ℚ) * e + R * (1 + r) - (rem - (e - rem * r)))) := by
      push_cast; ring
    rw [key]
    calc |(pyRound2 (rem * r) - rem * r) +
            (S - ((k : ℚ) * e + R * (1 + r) - (rem - (e - rem * r))))|
        ≤ |pyRound2 (rem * r) - rem * r| +
            |S - ((k : ℚ) * e + R * (1 + r) - (rem - (e - rem * r)))| :=
          abs_add _ _
      _ ≤ 1/200 + ((k : ℚ) + 1) / 200 := by linarith
      _ = (((k + 1 : ℕ) : ℚ) + 1) / 200 := by push_cast; ring

theorem criteriaFor_education : criteriaFor "Education Loan" =
    { min_age := 18, max_age_maturity := 35, min_income := 0
      min_employment_years := 0, min_credit_score := 550, max_dti_ratio := 0
      min_interest_rate := 8, max_loan_to_income := 10 } := by
  simp [criteriaFor, LOAN_CRITERIA, List.lookup]

/-! ### Claims -/

/-- Claim C1: contrary to the claim, `calculate_emi` does not handle the
`rate = 0` degenerate case: for every principal and term the denominator
`(1+0)^n - 1` is zero and the computation raises `ZeroDivisionError`
(modelled as `none`) instead of returning `principal / termMonths` rounded
to 2 decimals. -/
theorem calculate_emi_zero_rate_none (principal : ℚ) (tenure_months : ℕ) :
    calculate_emi principal 0 tenure_months = none := by
  simp [calculate_emi]

/-- Claim C2: the code performs no input validation at all.  A request with
`principal = -1000 ≤ 0` neither raises a distinct `InvalidArgument` error in
`calculate_emi` (it returns the installment `-87.92`) nor in the
underwriting evaluation: `apply_loan` returns an ordinary auto-rejection
with business reasons. -/
theorem negative_principal_flows_through :
    calculate_emi (-1000) 10 12 = some (-(2198/25)) ∧
    apply_loan exampleBorrower (-1000) 10 12 "Personal Loan" evalDate =
      some (LoanStatus.Rejected,
        [Reason.minAge 21, Reason.minEmploymentYears 1,
         Reason.minInterestRate (21/2)]) := by
  constructor
  · norm_num [calculate_emi, pyRound2, rhe]
  · norm_num [apply_loan, validate_loan_application, calculate_emi,
      calculate_age, calculate_employment_years, calculate_dti_ratio,
      criteriaFor, LOAN_CRITERIA, personalLoanCriteria, List.lookup,
      RatInf.gtQ, exampleBorrower, evalDate, pyRound2, rhe]
    simp

/-- Claim C9: `calculate_dti_ratio` never divides by zero: for a borrower
with zero annual income it returns the sentinel `100` exactly, for every
candidate installment. -/
theorem calculate_dti_zero_income_sentinel (user : PyUser) (new_loan_emi : ℚ)
    (h : user.annual_income = 0) :
    calculate_dti_ratio user new_loan_emi = 100 := by
  simp [calculate_dti_ratio, h]

/-- Witness for C9 at a zero-income borrower and installment 50. -/
theorem calculate_dti_zero_income_sentinel_witness :
    zeroIncomeBorrower.annual_income = 0 ∧
    calculate_dti_ratio zeroIncomeBorrower 50 = 100 :=
  ⟨rfl, calculate_dti_zero_income_sentinel zeroIncomeBorrower 50 rfl⟩

/-- Helper: the per-check bookkeeping contract of
`validate_loan_application`. -/
theorem validate_checks_spec (user : PyUser)
    (loan_amount interest_rate : ℚ) (loan_term : ℕ) (loan_type : String)
    (today : Date) (issues : List Reason) (m : Metrics)
    (h : validate_loan_application user loan_amount interest_rate loan_term
        loan_type today = some (issues, m)) :
    ChecksSpec (criteriaFor loan_type) user.annual_income user.credit_score
      interest_rate issues m := by
  simp only [validate_loan_application, Option.map_eq_some'] at h
  obtain ⟨emi, hemi, hpair⟩ := h
  simp only [Prod.mk.injEq] at hpair
  obtain ⟨hiss, hm⟩ := hpair
  subst hiss
  subst hm
  unfold ChecksSpec
  refine ⟨?_, ?_, ?_, ?_, ?_, ?_, ?_, ?_, ?_⟩
  · simp only [length_appendIf, List.length_nil, Nat.zero_add]
  all_goals
    simp only [mem_appendIf, List.not_mem_nil, false_or]
    simp

/-- Claim C6: whenever `validate_loan_application` returns (i.e. the
installment computation does not raise), every one of the eight threshold
checks is evaluated — no early return — and each failing check appends
exactly one reason: the length of `issues` equals the number of failing
checks and each check's message is present iff that check fails, so several
reasons can appear in one evaluation. -/
theorem validator_no_short_circuit (user : PyUser)
    (loan_amount interest_rate : ℚ) (loan_term : ℕ) (loan_type : String)
    (today : Date) (issues : List Reason) (m : Metrics)
    (h : validate_loan_application user loan_amount interest_rate loan_term
        loan_type today = some (issues, m)) :
    ChecksSpec (criteriaFor loan_type) user.annual_income user.credit_score
      interest_rate issues m :=
  validate_checks_spec user loan_amount interest_rate loan_term loan_type
    today issues m h

/-- Witness for C6: `exampleBorrower` requesting a 1000 Personal Loan at
120% over 2 months fails exactly the age and employment checks, and both
reasons appear. -/
theorem validator_no_short_circuit_witness :
    validate_loan_application exampleBorrower 1000 120 2 "Personal Loan"
        evalDate = some (sampleIssues, sampleMetrics) ∧
    ChecksSpec (criteriaFor "Personal Loan") exampleBorrower.annual_income
      exampleBorrower.credit_score 120 sampleIssues sampleMetrics := by
  have h : validate_loan_application exampleBorrower 1000 120 2
      "Personal Loan" evalDate = some (sampleIssues, sampleMetrics) := by
    norm_num [validate_loan_application, calculate_emi, calculate_age,
      calculate_employment_years, calculate_dti_ratio, criteriaFor,
      LOAN_CRITERIA, personalLoanCriteria, List.lookup, RatInf.gtQ,
      exampleBorrower, evalDate, pyRound2, rhe, sampleIssues, sampleMetrics]
  exact ⟨h, validator_no_short_circuit exampleBorrower 1000 120 2
    "Personal Loan" evalDate sampleIssues sampleMetrics h⟩

/-- Claim C7: whenever the evaluation completes, `apply_loan` sets status
`Rejected` iff the issues list is non-empty and `Pending` otherwise; it
never produces `Approved`. -/
theorem apply_loan_status_policy (user : PyUser)
    (loan_amount interest_rate : ℚ) (loan_term : ℕ) (loan_type : String)
    (today : Date) (st : LoanStatus) (issues : List Reason)
    (h : apply_loan user loan_amount interest_rate loan_term loan_type today
        = some (st, issues)) :
    (st = LoanStatus.Rejected ↔ issues ≠ []) ∧
    (st = LoanStatus.Pending ↔ issues = []) ∧
    st ≠ LoanStatus.Approved := by
  simp only [apply_loan, Option.map_eq_some'] at h
  obtain ⟨⟨i, mets⟩, hv, hpair⟩ := h
  dsimp only at hpair
  by_cases hi : i = []
  · rw [if_neg (by simp [hi])] at hpair
    simp only [Prod.mk.injEq] at hpair
    obtain ⟨h1, h2⟩ := hpair
    subst h1
    subst h2
    simp [hi]
  · rw [if_pos hi] at hpair
    simp only [Prod.mk.injEq] at hpair
    obtain ⟨h1, h2⟩ := hpair
    subst h1
    subst h2
    simp [hi]

/-- Witness for C7: the sample evaluation auto-rejects with a non-empty
reasons list. -/
theorem apply_loan_status_policy_witness :
    apply_loan exampleBorrower 1000 120 2 "Personal Loan" evalDate =
      some (LoanStatus.Rejected, sampleIssues) ∧
    ((LoanStatus.Rejected = LoanStatus.Rejected ↔ sampleIssues ≠ []) ∧
     (LoanStatus.Rejected = LoanStatus.Pending ↔ sampleIssues = []) ∧
     LoanStatus.Rejected ≠ LoanStatus.Approved) := by
  have h : apply_loan exampleBorrower 1000 120 2 "Personal Loan" evalDate =
      some (LoanStatus.Rejected, sampleIssues) := by
    norm_num [apply_loan, validate_loan_application, calculate_emi,
      calculate_age, calculate_employment_years, calculate_dti_ratio,
      criteriaFor, LOAN_CRITERIA, personalLoanCriteria, List.lookup,
      RatInf.gtQ, exampleBorrower, evalDate, pyRound2, rhe, sampleIssues]
    simp [sampleIssues]
  exact ⟨h, apply_loan_status_policy exampleBorrower 1000 120 2
    "Personal Loan" evalDate LoanStatus.Rejected sampleIssues h⟩

/-- Claim C8: for an Education Loan (`max_dti_ratio = 0`) the DTI check
fails exactly when the computed DTI ratio is strictly positive: the DTI
reason is in `issues` iff `0 < dti`, and it is absent when `dti = 0`. -/
theorem education_dti_zero_policy (user : PyUser)
    (loan_amount interest_rate : ℚ) (loan_term : ℕ) (today : Date)
    (issues : List Reason) (m : Metrics)
    (h : validate_loan_application user loan_amount interest_rate loan_term
        "Education Loan" today = some (issues, m)) :
    (Reason.maxDti 0 m.dti_ratio ∈ issues ↔ 0 < m.dti_ratio) ∧
    (m.dti_ratio = 0 → Reason.maxDti 0 m.dti_ratio ∉ issues) := by
  have hspec := validate_checks_spec user loan_amount interest_rate loan_term
    "Education Loan" today issues m h
  rw [criteriaFor_education] at hspec
  obtain ⟨-, -, -, -, -, -, hdti, -, -⟩ := hspec
  refine ⟨hdti, fun h0 => ?_⟩
  rw [hdti, h0]
  simp

/-- Witness for C8: `zeroIncomeBorrower` requesting an Education Loan has
DTI sentinel 100 > 0 and the DTI reason appears. -/
theorem education_dti_zero_policy_witness :
    validate_loan_application zeroIncomeBorrower 1000 120 2 "Education Loan"
        evalDate = some (eduIssues, eduMetrics) ∧
    ((Reason.maxDti 0 eduMetrics.dti_ratio ∈ eduIssues ↔
        0 < eduMetrics.dti_ratio) ∧
     (eduMetrics.dti_ratio = 0 → Reason.maxDti 0 eduMetrics.dti_ratio ∉
        eduIssues)) := by
  have h : validate_loan_application zeroIncomeBorrower 1000 120 2
      "Education Loan" evalDate = some (eduIssues, eduMetrics) := by
    norm_num [validate_loan_application, calculate_emi, calculate_age,
      calculate_employment_years, calculate_dti_ratio, criteriaFor_education,
      RatInf.gtQ, zeroIncomeBorrower, evalDate, pyRound2, rhe, eduIssues,
      eduMetrics]
  exact ⟨h, education_dti_zero_policy zeroIncomeBorrower 1000 120 2 evalDate
    eduIssues eduMetrics h⟩

/-- Claim C10: for a borrower with zero annual income, the loan-to-income
metric is the infinity sentinel and the loan-to-income check fails — its
reason is appended — for every loan type in the catalog (and for unknown
types, which fall back to the Personal Loan thresholds). -/
theorem zero_income_loan_to_income_fails (user : PyUser)
    (loan_amount interest_rate : ℚ) (loan_term : ℕ) (loan_type : String)
    (today : Date) (issues : List Reason) (m : Metrics)
    (h0 : user.annual_income = 0) (hP : 0 < loan_amount)
    (h : validate_loan_application user loan_amount interest_rate loan_term
        loan_type today = some (issues, m)) :
    m.loan_to_income = RatInf.inf ∧
    Reason.maxLoanToIncome (criteriaFor loan_type).max_loan_to_income ∈
      issues := by
  simp only [validate_loan_application, Option.map_eq_some'] at h
  obtain ⟨emi, hemi, hpair⟩ := h
  simp only [Prod.mk.injEq] at hpair
  obtain ⟨hiss, hm⟩ := hpair
  subst hiss
  subst hm
  constructor
  · simp [h0]
  · simp [mem_appendIf, h0, RatInf.gtQ]

/-- Witness for C10: `zeroIncomeBorrower` requesting a 1000 Education Loan
has infinite loan-to-income and the loan-to-income reason appears. -/
theorem zero_income_loan_to_income_fails_witness :
    zeroIncomeBorrower.annual_income = 0 ∧ (0 : ℚ) < 1000 ∧
    validate_loan_application zeroIncomeBorrower 1000 120 2 "Education Loan"
        evalDate = some (eduIssues, eduMetrics) ∧
    (eduMetrics.loan_to_income = RatInf.inf ∧
     Reason.maxLoanToIncome (criteriaFor "Education Loan").max_loan_to_income
       ∈ eduIssues) := by
  have h : validate_loan_application zeroIncomeBorrower 1000 120 2
      "Education Loan" evalDate = some (eduIssues, eduMetrics) := by
    norm_num [validate_loan_application, calculate_emi, calculate_age,
      calculate_employment_years, calculate_dti_ratio, criteriaFor_education,
      RatInf.gtQ, zeroIncomeBorrower, evalDate, pyRound2, rhe, eduIssues,
      eduMetrics]
  exact ⟨rfl, by norm_num, h,
    zero_income_loan_to_income_fails zeroIncomeBorrower 1000 120 2
      "Education Loan" evalDate eduIssues eduMetrics rfl (by norm_num) h⟩

/-- Claim C5 counterexample: the claim quantifies over all rates `≥ 0`, but
at rate `0` (in the claimed domain) `generate_emi_schedule` produces no
schedule at all — `calculate_emi` raises `ZeroDivisionError` — instead of
12 entries. -/
theorem generate_schedule_zero_rate_none :
    generate_emi_schedule 1200 0 12 0 = none := by
  simp [generate_emi_schedule, calculate_emi]

/-- Claim C5 (amended to positive rate): for `principal > 0`, `rate > 0`
and `termMonths ≥ 1` the schedule exists, has exactly `termMonths` entries
numbered `1..termMonths`, and the last entry's remaining principal is
exactly 0. -/
theorem generate_schedule_shape (loan_amount interest_rate : ℚ)
    (loan_term : ℕ) (start_date : ℤ) (hP : 0 < loan_amount)
    (hr : 0 < interest_rate) (hn : 1 ≤ loan_term) :
    ∃ sched,
      generate_emi_schedule loan_amount interest_rate loan_term start_date
        = some sched ∧
      sched.length = loan_term ∧
      sched.map ScheduleEntry.emi_number = List.range' 1 loan_term ∧
      ∃ lastEntry, sched.getLast? = some lastEntry ∧
        lastEntry.remaining_principal = 0 ∧
        lastEntry.emi_number = loan_term := by
  obtain ⟨m, rfl⟩ : ∃ m, loan_term = m + 1 := ⟨loan_term - 1, by omega⟩
  have h1 : (1 : ℚ) < 1 + interest_rate / 12 / 100 := by linarith
  have hpow : (1 : ℚ) < (1 + interest_rate / 12 / 100) ^ (m + 1) :=
    one_lt_pow₀ h1 (Nat.succ_ne_zero m)
  have hden : (1 + interest_rate / 12 / 100) ^ (m + 1) - 1 ≠ 0 :=
    sub_ne_zero.mpr (ne_of_gt hpow)
  set e := pyRound2 (loan_amount * (interest_rate / 12 / 100) *
      (1 + interest_rate / 12 / 100) ^ (m + 1) /
      ((1 + interest_rate / 12 / 100) ^ (m + 1) - 1)) with he
  refine ⟨emiRows e (interest_rate / 12 / 100) start_date (m + 1) (m + 1)
      loan_amount, ?_, emiRows_length _ _ _ _ _ _, ?_, ?_⟩
  · simp only [generate_emi_schedule, calculate_emi, if_neg hden,
      Option.map_some']
  · simpa using emiRows_map_number e (interest_rate / 12 / 100) start_date
      (m + 1) (m + 1) loan_amount le_rfl
  · exact emiRows_getLast e (interest_rate / 12 / 100) start_date (m + 1) m
      loan_amount

/-- Witness for C5 (amended) at a 1000 loan, 120% annual rate, 2 months. -/
theorem generate_schedule_shape_witness :
    (0 : ℚ) < 1000 ∧ (0 : ℚ) < 120 ∧ 1 ≤ 2 ∧
    (∃ sched, generate_emi_schedule 1000 120 2 0 = some sched ∧
      sched.length = 2 ∧
      sched.map ScheduleEntry.emi_number = List.range' 1 2 ∧
      ∃ lastEntry, sched.getLast? = some lastEntry ∧
        lastEntry.remaining_principal = 0 ∧ lastEntry.emi_number = 2) :=
  ⟨by norm_num, by norm_num, by norm_num,
    generate_schedule_shape 1000 120 2 0 (by norm_num) (by norm_num)
      (by norm_num)⟩

/-- Claim C4 counterexample: for a 250000 loan at 10% over 6 months the
rounded principal components sum to 250000.02, which is not within 0.01 of
the principal. -/
theorem principal_sum_tolerance_cex :
    (((generate_emi_schedule 250000 10 6 0).getD []).map
        ScheduleEntry.principal_component).sum = 250000 + 2/100 ∧
    ¬(|(250000 + 2/100 : ℚ) - 250000| ≤ 1/100) := by
  constructor
  · norm_num [generate_emi_schedule, calculate_emi, emiRows, pyRound2, rhe,
      Int.fract, -Int.self_sub_floor]
  · rw [show (250000 + 2/100 : ℚ) - 250000 = 1/50 by ring,
      abs_of_nonneg (by norm_num)]
    norm_num

/-- Claim C4 (amended tolerance): whenever a schedule is produced for
`termMonths ≥ 1`, the sum of the rounded `principal_component` fields equals
the principal within `0.005 * termMonths` (the unrounded components sum to
the principal exactly); the flat `0.01` bound fails in general. -/
theorem principal_sum_within_rounding (loan_amount interest_rate : ℚ)
    (loan_term : ℕ) (start_date : ℤ) (sched : List ScheduleEntry)
    (hn : 1 ≤ loan_term)
    (hs : generate_emi_schedule loan_amount interest_rate loan_term
        start_date = some sched) :
    |(sched.map ScheduleEntry.principal_component).sum - loan_amount|
      ≤ (loan_term : ℚ) / 200 := by
  obtain ⟨m, rfl⟩ : ∃ m, loan_term = m + 1 := ⟨loan_term - 1, by omega⟩
  simp only [generate_emi_schedule, Option.map_eq_some'] at hs
  obtain ⟨e, he, hrows⟩ := hs
  subst hrows
  simpa using abs_princ_sum_sub_le e (interest_rate / 12 / 100) start_date
    (m + 1) m loan_amount

/-- Witness for C4 (amended) at a 1000 loan, 120% annual rate, 2 months. -/
theorem principal_sum_within_rounding_witness :
    1 ≤ 2 ∧
    generate_emi_schedule 1000 120 2 0 = some scheduleFixture ∧
    |(scheduleFixture.map ScheduleEntry.principal_component).sum - 1000|
      ≤ ((2 : ℕ) : ℚ) / 200 := by
  have h : generate_emi_schedule 1000 120 2 0 = some scheduleFixture := by
    norm_num [generate_emi_schedule, calculate_emi, emiRows, pyRound2, rhe,
      scheduleFixture, Int.fract, -Int.self_sub_floor]
  exact ⟨by norm_num, h,
    principal_sum_within_rounding 1000 120 2 0 scheduleFixture (by norm_num)
      h⟩

/-- Claim C3 counterexample: for a 12345 loan at 10% over 3 months,
`calculate_total_interest` returns 206.31 while the schedule's rounded
interest components sum to 206.33 — not within 0.01. -/
theorem total_interest_tolerance_cex :
    calculate_total_interest 12345 10 3 = some (20631/100) ∧
    (((generate_emi_schedule 12345 10 3 0).getD []).map
        ScheduleEntry.interest_component).sum = 20633/100 ∧
    ¬(|(20631/100 : ℚ) - 20633/100| ≤ 1/100) := by
  refine ⟨?_, ?_, ?_⟩
  · norm_num [calculate_total_interest, calculate_emi, pyRound2, rhe,
      Int.fract, -Int.self_sub_floor]
  · norm_num [generate_emi_schedule, calculate_emi, emiRows, pyRound2, rhe,
      Int.fract, -Int.self_sub_floor]
  · rw [show (20631/100 : ℚ) - 20633/100 = -(1/50) by ring, abs_neg,
      abs_of_nonneg (by norm_num)]
    norm_num

/-- Claim C3 (amended): `calculate_total_interest` equals the rounded value
of the schedule's exact interest sum plus the final-entry installment
correction (formulaic installment minus exact final installment), and the
rounded `interest_component` fields sum to the exact interest sum within
`0.005 * termMonths`; the flat `0.01` agreement claimed fails in general. -/
theorem total_interest_final_entry_correction (loan_amount interest_rate : ℚ)
    (loan_term : ℕ) (start_date : ℤ) (emi : ℚ) (sched : List ScheduleEntry)
    (hn : 1 ≤ loan_term)
    (he : calculate_emi loan_amount interest_rate loan_term = some emi)
    (hs : generate_emi_schedule loan_amount interest_rate loan_term
        start_date = some sched) :
    calculate_total_interest loan_amount interest_rate loan_term =
      some (pyRound2
        ((((loan_term : ℚ) - 1) * emi +
            remAt emi (interest_rate / 12 / 100) (loan_term - 1) loan_amount *
              (1 + interest_rate / 12 / 100) - loan_amount) +
          (emi -
            remAt emi (interest_rate / 12 / 100) (loan_term - 1) loan_amount *
              (1 + interest_rate / 12 / 100)))) ∧
    |(sched.map ScheduleEntry.interest_component).sum -
        (((loan_term : ℚ) - 1) * emi +
          remAt emi (interest_rate / 12 / 100) (loan_term - 1) loan_amount *
            (1 + interest_rate / 12 / 100) - loan_amount)|
      ≤ (loan_term : ℚ) / 200 := by
  obtain ⟨m, rfl⟩ : ∃ m, loan_term = m + 1 := ⟨loan_term - 1, by omega⟩
  constructor
  · simp only [calculate_total_interest, he, Option.map_some']
    rw [show (((m + 1 : ℕ) : ℚ) - 1) * emi +
        remAt emi (interest_rate / 12 / 100) (m + 1 - 1) loan_amount *
          (1 + interest_rate / 12 / 100) - loan_amount +
        (emi -
          remAt emi (interest_rate / 12 / 100) (m + 1 - 1) loan_amount *
            (1 + interest_rate / 12 / 100)) =
        emi * ((m + 1 : ℕ) : ℚ) - loan_amount from by push_cast; ring]
  · simp only [generate_emi_schedule, Option.map_eq_some'] at hs
    obtain ⟨e', he', hrows⟩ := hs
    rw [he] at he'
    replace he' : emi = e' := by simpa using he'
    subst he'
    subst hrows
    have hbound := abs_interest_sum_sub_le emi (interest_rate / 12 / 100)
      start_date (m + 1) m loan_amount
    rw [show m + 1 - 1 = m from rfl,
      show ((m + 1 : ℕ) : ℚ) - 1 = (m : ℚ) from by push_cast; ring,
      show ((m + 1 : ℕ) : ℚ) = (m : ℚ) + 1 from by push_cast; ring]
    exact hbound

/-- Witness for C3 (amended) at a 1000 loan, 120% annual rate, 2 months. -/
theorem total_interest_correction_witness :
    1 ≤ 2 ∧
    calculate_emi 1000 120 2 = some (57619/100) ∧
    generate_emi_schedule 1000 120 2 0 = some scheduleFixture ∧
    (calculate_total_interest 1000 120 2 =
      some (pyRound2
        ((((2 : ℕ) : ℚ) - 1) * (57619/100) +
            remAt (57619/100) (120 / 12 / 100) (2 - 1) 1000 *
              (1 + 120 / 12 / 100) - 1000 +
          (57619/100 -
            remAt (57619/100) (120 / 12 / 100) (2 - 1) 1000 *
              (1 + 120 / 12 / 100)))) ∧
    |(scheduleFixture.map ScheduleEntry.interest_component).sum -
        ((((2 : ℕ) : ℚ) - 1) * (57619/100) +
          remAt (57619/100) (120 / 12 / 100) (2 - 1) 1000 *
            (1 + 120 / 12 / 100) - 1000)|
      ≤ ((2 : ℕ) : ℚ) / 200) := by
  have he : calculate_emi 1000 120 2 = some (57619/100) := by
    norm_num [calculate_emi, pyRound2, rhe, Int.fract, -Int.self_sub_floor]
  have hs : generate_emi_schedule 1000 120 2 0 = some scheduleFixture := by
    norm_num [generate_emi_schedule, calculate_emi, emiRows, pyRound2, rhe,
      scheduleFixture, Int.fract, -Int.self_sub_floor]
  exact ⟨by norm_num, he, hs,
    total_interest_final_entry_correction 1000 120 2 0 (57619/100)
      scheduleFixture (by norm_num) he hs⟩
